import Mathlib

/-!
Verification of the browser client logic of the dspy-nlp-demo repository
(src/static/script.js), shallowly embedded in Lean 4.

The client attaches a click handler to the analyze button, serializes the
text field into a JSON body, POSTs it to /analyze, and renders the decoded
JSON response into the results panel: an error paragraph when the response
carries a truthy error field, otherwise three analysis sections built from
five leaf fields; a rejection of the promise chain is rendered by the catch
handler as an error paragraph.
-/

/-- A JavaScript runtime value as far as the client script observes it:
the values that can appear in a decoded JSON response, plus undefined. -/
inductive JsValue where
  | undefined : JsValue
  | null : JsValue
  | bool : Bool → JsValue
  | num : Int → JsValue
  | str : String → JsValue
  | obj : List (String × JsValue) → JsValue

/-- First binding of a key in an object field list, as JavaScript own-property
lookup behaves on the object literals decoded from JSON. -/
def lookupField (k : String) : List (String × JsValue) → Option JsValue
  | [] => none
  | (k₁, v) :: rest => if k₁ = k then some v else lookupField k rest

/-- Property access v.k of the script: reading a property of undefined or null
throws a TypeError (modelled as Except.error); reading a missing property of
an object yields undefined; property reads the script performs on boxed
primitives yield undefined. -/
def JsValue.get : JsValue → String → Except Unit JsValue
  | .undefined, _ => .error ()
  | .null, _ => .error ()
  | .obj fields, k => .ok ((lookupField k fields).getD .undefined)
  | _, _ => .ok .undefined

/-- JavaScript truthiness, as tested by the if (data.error) branch. -/
def JsValue.truthy : JsValue → Bool
  | .undefined => false
  | .null => false
  | .bool b => b
  | .num n => n != 0
  | .str s => s != ""
  | .obj _ => true

/-- String conversion applied by template-literal interpolation. -/
def JsValue.toTemplateString : JsValue → String
  | .undefined => "undefined"
  | .null => "null"
  | .bool b => if b then "true" else "false"
  | .num n => toString n
  | .str s => s
  | .obj _ => "[object Object]"

/-- The fixed heading the handler always emits first. -/
def analysisHeading : String := "<h3>Analysis Results:</h3>"

/-- The else branch of the success handler: the three analysis sections,
with each leaf read by a fresh property-access chain on data in the order the
template literals are evaluated. Any access throwing propagates. -/
def renderSections (data : JsValue) : Except Unit String := do
  let entities ← (← data.get "entity_extraction").get "entities"
  let relationships ← (← data.get "entity_extraction").get "relationships"
  let sentiment ← (← data.get "sentiment_analysis").get "sentiment"
  let confidence ← (← data.get "sentiment_analysis").get "confidence"
  let summary ← (← data.get "summarization").get "summary"
  pure ("<h4>Entity Extraction:</h4>"
    ++ "<p>Entities: " ++ entities.toTemplateString ++ "</p>"
    ++ "<p>Relationships: " ++ relationships.toTemplateString ++ "</p>"
    ++ "<h4>Sentiment Analysis:</h4>"
    ++ "<p>Sentiment: " ++ sentiment.toTemplateString ++ "</p>"
    ++ "<p>Confidence: " ++ confidence.toTemplateString ++ "</p>"
    ++ "<h4>Summarization:</h4>"
    ++ "<p>Summary: " ++ summary.toTemplateString ++ "</p>")

/-- The then(data) handler of the script: emit the heading, then either the
error paragraph (if data.error is truthy) or the three analysis sections.
An Except.error value is an exception escaping the handler. -/
def renderThen (data : JsValue) : Except Unit String := do
  let err ← data.get "error"
  if err.truthy then
    pure (analysisHeading ++ "<p>" ++ err.toTemplateString ++ "</p>")
  else do
    let body ← renderSections data
    pure (analysisHeading ++ body)

/-- The catch(error) handler of the script, applied to the stringified
runtime error detail. -/
def renderCatch (errorDetail : String) : String :=
  "<p>Error: " ++ errorDetail ++ "</p>"

/-- One complete settlement of the promise chain on a decoded response: the
html the chain finally assigns to the results panel, where errorDetail is
the string conversion of whatever exception would reach the catch handler. -/
def handleData (data : JsValue) (errorDetail : String) : String :=
  match renderThen data with
  | .ok html => html
  | .error _ => renderCatch errorDetail

/-- The innerHTML assignment on the results element: an unconditional
overwrite of the previous panel content. -/
def applyCompletion (panel : String) (html : String) : String := html

/-- The panel content after a sequence of completion handlers has run, each
overwriting the single results element. -/
def runCompletions (init : String) (htmls : List String) : String :=
  htmls.foldl applyCompletion init

/-- Lower-case hex digit, as used by the JSON string escape for control
characters. -/
def hexDigit (n : Nat) : Char :=
  if n < 10 then Char.ofNat (48 + n) else Char.ofNat (87 + n)

/-- JSON.stringify escaping of one character of a string value. -/
def jsonEscapeChar (c : Char) : String :=
  if c = Char.ofNat 34 then "\\\""
  else if c = Char.ofNat 92 then "\\\\"
  else if c = Char.ofNat 8 then "\\b"
  else if c = Char.ofNat 9 then "\\t"
  else if c = Char.ofNat 10 then "\\n"
  else if c = Char.ofNat 12 then "\\f"
  else if c = Char.ofNat 13 then "\\r"
  else if c.toNat < 32 then
    "\\u00" ++ String.mk [hexDigit (c.toNat / 16), hexDigit (c.toNat % 16)]
  else String.singleton c

/-- JSON.stringify escaping of a whole string value. -/
def jsonEscapeString (s : String) : String :=
  String.join (s.data.map jsonEscapeChar)

/-- JSON.stringify applied to the object literal the click handler builds,
with document bound to the text field content. -/
def jsonStringifyDocument (t : String) : String :=
  "\x7b\"document\":\"" ++ jsonEscapeString t ++ "\"\x7d"

/-- The observable parts of a fetch call issued by the script. -/
structure HttpRequest where
  url : String
  httpMethod : String
  contentType : String
  body : String

/-- The single fetch call the click handler issues for a given text field
content. -/
def analyzeRequest (documentInput : String) : HttpRequest :=
  { url := "/analyze"
    httpMethod := "POST"
    contentType := "application/json"
    body := jsonStringifyDocument documentInput }

/-- All requests one click issues: the handler has no branch, so exactly one
fetch for every input, the empty string included. -/
def clickRequests (documentInput : String) : List HttpRequest :=
  [analyzeRequest documentInput]

/-- Substring containment between strings. -/
def strContains (s t : String) : Prop := ∃ a b, s = a ++ t ++ b

/-- The success response of the worked example in the specification. -/
def appleResponse : JsValue :=
  .obj [("entity_extraction", .obj [("entities", .str "Apple"), ("relationships", .str "none")]),
        ("sentiment_analysis", .obj [("sentiment", .str "positive"), ("confidence", .str "0.92")]),
        ("summarization", .obj [("summary", .str "Apple profits rose.")])]

/-- A response whose error field is present but holds the empty string, with
all three analysis sections present. -/
def emptyErrorResponse : JsValue :=
  .obj [("error", .str ""),
        ("entity_extraction", .obj [("entities", .str "E1"), ("relationships", .str "R1")]),
        ("sentiment_analysis", .obj [("sentiment", .str "S1"), ("confidence", .str "C1")]),
        ("summarization", .obj [("summary", .str "U1")])]

/-- Like emptyErrorResponse but with a different entities value, to exhibit
dependence of the rendered output on the analysis sections. -/
def emptyErrorResponse2 : JsValue :=
  .obj [("error", .str ""),
        ("entity_extraction", .obj [("entities", .str "E2"), ("relationships", .str "R1")]),
        ("sentiment_analysis", .obj [("sentiment", .str "S1"), ("confidence", .str "C1")]),
        ("summarization", .obj [("summary", .str "U1")])]

/-- A success response whose sections are present but several leaf fields are
missing. -/
def partialResponse : JsValue :=
  .obj [("entity_extraction", .obj [("entities", .str "Apple")]),
        ("sentiment_analysis", .obj [("sentiment", .str "positive")]),
        ("summarization", .obj [])]

/-- Property access on undefined throws. -/
theorem get_undefined (k : String) : JsValue.get .undefined k = .error () := rfl

/-- Property access on an object resolves through own-property lookup. -/
theorem get_obj (fields : List (String × JsValue)) (k : String) :
    JsValue.get (.obj fields) k = .ok ((lookupField k fields).getD .undefined) := rfl

/-- The panel content after the overwrite sequence equals the html of the
completion that ran last (or the initial content when none ran). -/
theorem runCompletions_eq_getLastD (init : String) (hs : List String) :
    runCompletions init hs = hs.getLastD init := by
  induction hs generalizing init with
  | nil => rfl
  | cons h t ih =>
    rw [List.getLastD_cons]
    exact ih h

/-- C1: for every success response object (error absent, all three sections
present with string leaf fields), the html assigned to the results panel is
exactly the heading, the three section headers, and the five field values in
the documented order entities, relationships, sentiment, confidence,
summary; in particular each value and each header occurs as a literal
substring, in that order. -/
theorem claim_C1 (data ee sa sm : JsValue) (e r s c su : String)
    (he : data.get "error" = .ok .undefined)
    (h1 : data.get "entity_extraction" = .ok ee)
    (h2 : ee.get "entities" = .ok (.str e))
    (h3 : ee.get "relationships" = .ok (.str r))
    (h4 : data.get "sentiment_analysis" = .ok sa)
    (h5 : sa.get "sentiment" = .ok (.str s))
    (h6 : sa.get "confidence" = .ok (.str c))
    (h7 : data.get "summarization" = .ok sm)
    (h8 : sm.get "summary" = .ok (.str su)) :
    renderThen data = .ok (analysisHeading ++ ("<h4>Entity Extraction:</h4>"
      ++ "<p>Entities: " ++ e ++ "</p>"
      ++ "<p>Relationships: " ++ r ++ "</p>"
      ++ "<h4>Sentiment Analysis:</h4>"
      ++ "<p>Sentiment: " ++ s ++ "</p>"
      ++ "<p>Confidence: " ++ c ++ "</p>"
      ++ "<h4>Summarization:</h4>"
      ++ "<p>Summary: " ++ su ++ "</p>")) := by
  simp [renderThen, renderSections, he, h1, h2, h3, h4, h5, h6, h7, h8,
    JsValue.truthy, JsValue.toTemplateString, Except.bind, bind, pure, Except.pure]

/-- C1 witness: the worked example of the specification, rendered. -/
theorem claim_C1_witness :
    renderThen appleResponse = .ok (analysisHeading ++ ("<h4>Entity Extraction:</h4>"
      ++ "<p>Entities: " ++ "Apple" ++ "</p>"
      ++ "<p>Relationships: " ++ "none" ++ "</p>"
      ++ "<h4>Sentiment Analysis:</h4>"
      ++ "<p>Sentiment: " ++ "positive" ++ "</p>"
      ++ "<p>Confidence: " ++ "0.92" ++ "</p>"
      ++ "<h4>Summarization:</h4>"
      ++ "<p>Summary: " ++ "Apple profits rose." ++ "</p>")) :=
  claim_C1 appleResponse
    (.obj [("entities", .str "Apple"), ("relationships", .str "none")])
    (.obj [("sentiment", .str "positive"), ("confidence", .str "0.92")])
    (.obj [("summary", .str "Apple profits rose.")])
    "Apple" "none" "positive" "0.92" "Apple profits rose."
    rfl rfl rfl rfl rfl rfl rfl rfl rfl

/-- C2 counterexample: a response whose error field is present but holds the
empty string renders the analysis sections, so the assigned html contains the
label Entities and its value, contradicting the claim for responses that
merely contain an error field. -/
theorem claim_C2_cex :
    JsValue.get emptyErrorResponse "error" = .ok (.str "") ∧
    strContains (handleData emptyErrorResponse "detail") "<p>Entities: E1</p>" := by
  refine ⟨rfl, "<h3>Analysis Results:</h3><h4>Entity Extraction:</h4>",
    "<p>Relationships: R1</p><h4>Sentiment Analysis:</h4><p>Sentiment: S1</p><p>Confidence: C1</p><h4>Summarization:</h4><p>Summary: U1</p>", ?_⟩
  rfl

/-- C2 amended: for every response object whose error field is truthy, the
html assigned to the results panel is exactly the heading followed by a
paragraph holding the stringified error; in particular it contains the error
string as a substring and contains an analysis label or value only where the
error string itself does. -/
theorem claim_C2_amended (data v : JsValue)
    (he : data.get "error" = .ok v) (ht : v.truthy = true) :
    renderThen data = .ok (analysisHeading ++ "<p>" ++ v.toTemplateString ++ "</p>") ∧
    strContains (analysisHeading ++ "<p>" ++ v.toTemplateString ++ "</p>")
      v.toTemplateString := by
  constructor
  · simp [renderThen, he, ht, Except.bind, bind, pure, Except.pure]
  · exact ⟨analysisHeading ++ "<p>", "</p>", rfl⟩

/-- C2 amended witness: a concrete truthy error response. -/
theorem claim_C2_amended_witness :
    renderThen (JsValue.obj [("error", JsValue.str "boom")]) =
      .ok (analysisHeading ++ "<p>" ++ "boom" ++ "</p>") :=
  (claim_C2_amended (JsValue.obj [("error", JsValue.str "boom")])
    (JsValue.str "boom") rfl rfl).1

/-- C3 counterexample: a response whose error field is present but falsy is
not treated as the error case: the html assigned is not the heading plus the
error paragraph, and it depends on the contents of the analysis sections, so
they are accessed. -/
theorem claim_C3_cex :
    JsValue.get emptyErrorResponse "error" = .ok (.str "") ∧
    handleData emptyErrorResponse "detail" ≠
      analysisHeading ++ "<p>" ++ "" ++ "</p>" ∧
    handleData emptyErrorResponse "detail" ≠ handleData emptyErrorResponse2 "detail" := by
  refine ⟨rfl, ?_, ?_⟩ <;> decide

/-- C3 amended: for every response object whose error field is truthy, the
client treats the response as the error case: it renders exactly the heading
and the error string, and the output does not depend on the three analysis
sections (two responses agreeing on the error value render identically), so
none of them is accessed. -/
theorem claim_C3_amended (d₁ d₂ v : JsValue)
    (h₁ : d₁.get "error" = .ok v) (h₂ : d₂.get "error" = .ok v)
    (ht : v.truthy = true) :
    renderThen d₁ = .ok (analysisHeading ++ "<p>" ++ v.toTemplateString ++ "</p>") ∧
    renderThen d₁ = renderThen d₂ := by
  have e₁ : renderThen d₁ = .ok (analysisHeading ++ "<p>" ++ v.toTemplateString ++ "</p>") := by
    simp [renderThen, h₁, ht, Except.bind, bind, pure, Except.pure]
  have e₂ : renderThen d₂ = .ok (analysisHeading ++ "<p>" ++ v.toTemplateString ++ "</p>") := by
    simp [renderThen, h₂, ht, Except.bind, bind, pure, Except.pure]
  exact ⟨e₁, e₁.trans e₂.symm⟩

/-- C3 amended witness: a truthy error response with sections present renders
the same as one without sections. -/
theorem claim_C3_amended_witness :
    renderThen (JsValue.obj [("error", JsValue.str "boom"),
        ("entity_extraction", JsValue.obj [("entities", JsValue.str "E1")])]) =
      .ok (analysisHeading ++ "<p>" ++ "boom" ++ "</p>") ∧
    renderThen (JsValue.obj [("error", JsValue.str "boom"),
        ("entity_extraction", JsValue.obj [("entities", JsValue.str "E1")])]) =
      renderThen (JsValue.obj [("error", JsValue.str "boom")]) :=
  claim_C3_amended
    (JsValue.obj [("error", JsValue.str "boom"),
      ("entity_extraction", JsValue.obj [("entities", JsValue.str "E1")])])
    (JsValue.obj [("error", JsValue.str "boom")])
    (JsValue.str "boom") rfl rfl rfl

/-- C4: with the error field absent and the three sections resolving to
values, the handler performs no schema validation: it renders whatever each
leaf access yields, a missing leaf of an object section yields the value
undefined, and undefined is interpolated as the literal text undefined. -/
theorem claim_C4 (data ee sa sm v1 v2 v3 v4 v5 : JsValue)
    (he : data.get "error" = .ok .undefined)
    (h1 : data.get "entity_extraction" = .ok ee)
    (h2 : ee.get "entities" = .ok v1)
    (h3 : ee.get "relationships" = .ok v2)
    (h4 : data.get "sentiment_analysis" = .ok sa)
    (h5 : sa.get "sentiment" = .ok v3)
    (h6 : sa.get "confidence" = .ok v4)
    (h7 : data.get "summarization" = .ok sm)
    (h8 : sm.get "summary" = .ok v5) :
    renderThen data = .ok (analysisHeading ++ ("<h4>Entity Extraction:</h4>"
      ++ "<p>Entities: " ++ v1.toTemplateString ++ "</p>"
      ++ "<p>Relationships: " ++ v2.toTemplateString ++ "</p>"
      ++ "<h4>Sentiment Analysis:</h4>"
      ++ "<p>Sentiment: " ++ v3.toTemplateString ++ "</p>"
      ++ "<p>Confidence: " ++ v4.toTemplateString ++ "</p>"
      ++ "<h4>Summarization:</h4>"
      ++ "<p>Summary: " ++ v5.toTemplateString ++ "</p>")) ∧
    (∀ fields k, lookupField k fields = none →
      JsValue.get (.obj fields) k = .ok .undefined) ∧
    JsValue.toTemplateString .undefined = "undefined" := by
  refine ⟨?_, ?_, rfl⟩
  · simp [renderThen, renderSections, he, h1, h2, h3, h4, h5, h6, h7, h8,
      JsValue.truthy, Except.bind, bind, pure, Except.pure]
  · intro fields k hk
    simp [JsValue.get, hk]

/-- C4 witness: a response missing the relationships, confidence and summary
leaves renders the literal text undefined in their places. -/
theorem claim_C4_witness :
    renderThen partialResponse = .ok (analysisHeading ++ ("<h4>Entity Extraction:</h4>"
      ++ "<p>Entities: " ++ "Apple" ++ "</p>"
      ++ "<p>Relationships: " ++ "undefined" ++ "</p>"
      ++ "<h4>Sentiment Analysis:</h4>"
      ++ "<p>Sentiment: " ++ "positive" ++ "</p>"
      ++ "<p>Confidence: " ++ "undefined" ++ "</p>"
      ++ "<h4>Summarization:</h4>"
      ++ "<p>Summary: " ++ "undefined" ++ "</p>")) :=
  (claim_C4 partialResponse
    (.obj [("entities", .str "Apple")])
    (.obj [("sentiment", .str "positive")])
    (.obj [])
    (.str "Apple") .undefined (.str "positive") .undefined .undefined
    rfl rfl rfl rfl rfl rfl rfl rfl rfl).1

/-- C5: every click issues exactly one POST request to /analyze with the JSON
content type, whose body is the JSON serialization of the object holding the
field content under the key document, for every input string including the
empty string; no branch short-circuits the request. -/
theorem claim_C5 (t : String) :
    clickRequests t = [analyzeRequest t] ∧
    (clickRequests t).length = 1 ∧
    (analyzeRequest t).url = "/analyze" ∧
    (analyzeRequest t).httpMethod = "POST" ∧
    (analyzeRequest t).contentType = "application/json" ∧
    (analyzeRequest t).body = "\x7b\"document\":\"" ++ jsonEscapeString t ++ "\"\x7d" :=
  ⟨rfl, rfl, rfl, rfl, rfl, rfl⟩

/-- C6: the catch handler assigns to the results panel, whatever its previous
content, the paragraph consisting of the text Error: followed by the runtime
error detail; in particular the panel is overwritten and reports the error. -/
theorem claim_C6 (errorDetail panel : String) :
    applyCompletion panel (renderCatch errorDetail) =
      "<p>" ++ "Error: " ++ errorDetail ++ "</p>" ∧
    strContains (renderCatch errorDetail) ("Error: " ++ errorDetail) := by
  refine ⟨rfl, "<p>", "</p>", ?_⟩
  show renderCatch errorDetail = "<p>" ++ ("Error: " ++ errorDetail) ++ "</p>"
  rw [← String.append_assoc]
  rfl

/-- C7: the results panel is a single element unconditionally overwritten by
each completion handler, so after any sequence of completions the panel holds
exactly the html rendered from the response that completed last; in
particular with two overlapping requests the later completion wins, whichever
request was sent first. -/
theorem claim_C7 (init : String) (ds : List (JsValue × String))
    (d₁ d₂ : JsValue) (e₁ e₂ : String) :
    runCompletions init (ds.map fun p => handleData p.1 p.2) =
      (ds.map fun p => handleData p.1 p.2).getLastD init ∧
    runCompletions init [handleData d₁ e₁, handleData d₂ e₂] = handleData d₂ e₂ :=
  ⟨runCompletions_eq_getLastD init (ds.map fun p => handleData p.1 p.2), rfl⟩

/-- C8: the error branch tests truthiness of the error property, not
presence: whenever that property yields a falsy value (the empty string,
zero, null, or absence itself), the handler takes the success branch and
renders the three analysis sections. -/
theorem claim_C8 :
    (∀ data v, JsValue.get data "error" = .ok v → v.truthy = false →
      renderThen data =
        Except.map (fun body => analysisHeading ++ body) (renderSections data)) ∧
    JsValue.truthy (.str "") = false ∧
    JsValue.truthy (.num 0) = false ∧
    JsValue.truthy .null = false ∧
    JsValue.truthy .undefined = false := by
  refine ⟨?_, rfl, rfl, rfl, rfl⟩
  intro data v he ht
  cases hs : renderSections data with
  | ok body => simp [renderThen, he, ht, hs, Except.bind, bind, pure, Except.pure, Except.map]
  | error u => simp [renderThen, he, ht, hs, Except.bind, bind, pure, Except.pure, Except.map]

/-- C8 witness: the falsy empty-string error value sends the concrete
response with the empty error field through the success branch. -/
theorem claim_C8_witness :
    renderThen emptyErrorResponse =
      Except.map (fun body => analysisHeading ++ body) (renderSections emptyErrorResponse) :=
  claim_C8.1 emptyErrorResponse (.str "") rfl rfl

/-- C9: with the error field absent, a missing analysis section makes the
property access on undefined throw inside the success handler; the chain
rejects and the catch handler assigns the transport-style error paragraph,
not a success fragment. The three conjuncts cover a missing first, second and
third section. -/
theorem claim_C9 :
    (∀ data exc, JsValue.get data "error" = .ok .undefined →
      JsValue.get data "entity_extraction" = .ok .undefined →
      renderThen data = .error () ∧
      handleData data exc = "<p>Error: " ++ exc ++ "</p>") ∧
    (∀ data exc fse, JsValue.get data "error" = .ok .undefined →
      JsValue.get data "entity_extraction" = .ok (.obj fse) →
      JsValue.get data "sentiment_analysis" = .ok .undefined →
      renderThen data = .error () ∧
      handleData data exc = "<p>Error: " ++ exc ++ "</p>") ∧
    (∀ data exc fse fsa, JsValue.get data "error" = .ok .undefined →
      JsValue.get data "entity_extraction" = .ok (.obj fse) →
      JsValue.get data "sentiment_analysis" = .ok (.obj fsa) →
      JsValue.get data "summarization" = .ok .undefined →
      renderThen data = .error () ∧
      handleData data exc = "<p>Error: " ++ exc ++ "</p>") := by
  refine ⟨?_, ?_, ?_⟩
  · intro data exc he h1
    have hr : renderThen data = .error () := by
      simp [renderThen, renderSections, he, h1, get_undefined, get_obj,
        JsValue.truthy, Except.bind, bind, pure, Except.pure]
    exact ⟨hr, by simp [handleData, hr, renderCatch]⟩
  · intro data exc fse he h1 h2
    have hr : renderThen data = .error () := by
      simp [renderThen, renderSections, he, h1, h2, get_undefined, get_obj,
        JsValue.truthy, Except.bind, bind, pure, Except.pure]
    exact ⟨hr, by simp [handleData, hr, renderCatch]⟩
  · intro data exc fse fsa he h1 h2 h3
    have hr : renderThen data = .error () := by
      simp [renderThen, renderSections, he, h1, h2, h3, get_undefined, get_obj,
        JsValue.truthy, Except.bind, bind, pure, Except.pure]
    exact ⟨hr, by simp [handleData, hr, renderCatch]⟩

/-- C9 witness: the empty object response (no error field, no sections)
throws in the success handler and the catch handler renders the error
paragraph. -/
theorem claim_C9_witness :
    renderThen (JsValue.obj []) = .error () ∧
    handleData (JsValue.obj []) "TypeError: boom" =
      "<p>Error: " ++ "TypeError: boom" ++ "</p>" :=
  claim_C9.1 (JsValue.obj []) "TypeError: boom" rfl rfl

/-- C10: rendering is deterministic and a pure function of the response
object and the error detail alone: two runs of the settled promise chain on
equal responses produce equal html, and the content assigned to the panel
does not depend on the panel's previous content. -/
theorem claim_C10 (d₁ d₂ : JsValue) (e₁ e₂ p₁ p₂ : String)
    (hd : d₁ = d₂) (he : e₁ = e₂) :
    handleData d₁ e₁ = handleData d₂ e₂ ∧
    applyCompletion p₁ (handleData d₁ e₁) = applyCompletion p₂ (handleData d₂ e₂) := by
  subst hd
  subst he
  exact ⟨rfl, rfl⟩

/-- C10 witness: two runs on the worked example from two different previous
panel states agree. -/
theorem claim_C10_witness :
    handleData appleResponse "x" = handleData appleResponse "x" ∧
    applyCompletion "" (handleData appleResponse "x") =
      applyCompletion "stale content" (handleData appleResponse "x") :=
  claim_C10 appleResponse appleResponse "x" "x" "" "stale content" rfl rfl
